import Mathlib

/-!
Shallow embedding of the breakpoint-driven inspection engine of the
dyninspector tool (sources: `src/dyninspector.py` and `src/dynlldb.py`).

The debugger backend (LLDB) is an external collaborator: every value the
engine obtains from the backend (program counters, process state, register
contents, symbol/section listings, memory words) is supplied through
explicit observation records, while all engine-owned data and control flow
(breakpoint registry, PLT/GOT tables, the execution-phase state machine,
console emissions) is modelled faithfully from the Python source.

Conventions used throughout:
- Python integers are `Nat` (addresses are unsigned) or `Int` where the
  source can go negative (the `step` counter, `load_address - file_offset`).
- A Python value that may be `None` is an `Option`.
- A Python function that may raise models its result as `Except PyErr _`
  or pairs the (already applied) state mutations with `Option PyErr`,
  since Python exceptions do not roll back earlier attribute mutations.
- GUI render emissions (asm pane, table redraws) are elided; console
  messages and the continue-button signal are kept because the
  specification makes claims about them.
-/

namespace DynInspectorModel

/-- Python exception kinds that the modelled code can raise. -/
inductive PyErr
  | typeError
  | attributeError
  | valueError
  | keyError
deriving DecidableEq, Repr

/-- Value of one hexadecimal digit character, as accepted by Python's
`int(s, 16)`. -/
def hexDigitVal (c : Char) : Option Nat :=
  if '0' ≤ c ∧ c ≤ '9' then some (c.toNat - 48)
  else if 'a' ≤ c ∧ c ≤ 'f' then some (c.toNat - 87)
  else if 'A' ≤ c ∧ c ≤ 'F' then some (c.toNat - 55)
  else none

/-- Accumulate the value of a run of hex digits; `none` on the first
non-digit, mirroring the `ValueError` of `int(s, 16)`. -/
def hexDigitsVal : List Char → Nat → Option Nat
  | [], acc => some acc
  | c :: cs, acc =>
    match hexDigitVal c with
    | none => none
    | some d => hexDigitsVal cs (acc * 16 + d)

/-- Python's `int(s, 16)` on the strings this program feeds it: an optional
`0x`/`0X` prefix followed by at least one hex digit.  `none` models the
raised `ValueError`.  (Sign and surrounding whitespace never occur in the
operand and register strings handled by the tool.) -/
def pyIntBase16 (s : String) : Option Nat :=
  let cs :=
    match s.toList with
    | '0' :: 'x' :: rest => rest
    | '0' :: 'X' :: rest => rest
    | l => l
  match cs with
  | [] => none
  | _ => hexDigitsVal cs 0

/-- Python's `hex(n).rstrip("L")` for a non-negative integer: lowercase
digits with a `0x` prefix (the Python 2 long suffix `L` is already
stripped). -/
def pyHex (n : Nat) : String :=
  "0x" ++ String.mk (Nat.toDigits 16 n)

/-- Python's `hex(n).rstrip("L")` for a possibly negative integer. -/
def pyHexInt (n : Int) : String :=
  if n < 0 then "-0x" ++ String.mk (Nat.toDigits 16 n.natAbs) else pyHex n.toNat

/-- Breakpoint tags, after `DynLldb.Breakpoint`'s class constants. -/
inductive Tag
  | PLT_BP
  | RET_FROM_PLT_BP
  | DLOPEN_BP
  | DLSYM_BP
  | DLCLOSE_BP
  | RET_FROM_DLOPEN
  | RET_FROM_DLCLOSE
  | RET_FROM_DLSYM
  | DYN_CALL_FUNC_BP
  | RET_FROM_DYN_CALL
deriving DecidableEq, Repr

/-- One record of the breakpoint registry (`DynLldb.Breakpoint` instance):
its address and tag.  The backend `bp_object` handle is elided and the
`callback` field is determined by the tag (each construction site in the
source pairs one fixed callback with one fixed tag). -/
structure Breakpoint where
  addr : Nat
  tag : Tag
deriving DecidableEq, Repr

/-- One `.got.plt` slot view (`DynLldb.GotFuncInfo`): both fields are the
strings the source stores (`addr` is the operand with its leading `*`
removed, `value` a `hex(...)` rendering). -/
structure GotFuncInfo where
  addr : String
  value : String
deriving DecidableEq, Repr

/-- One stub record (`DynLldb.PltFuncInfo`).  `bp_enabled` models the
enabled flag of the backend breakpoint object stored in the entry's `bp`
field; `none` means `bp` is still `None` (no breakpoint created yet).
The `sym` and `bp_callback` fields of the source are backend handles /
always `None` and are elided. -/
structure PltFuncInfo where
  name : String
  addr : Nat
  got_entry : GotFuncInfo
  bp_enabled : Option Bool
deriving DecidableEq, Repr

/-- `DynLldb.ProcessState`. -/
inductive PState
  | STOPPED
  | EXITED
deriving DecidableEq, Repr

/-- `DynInspector.ExecStates`. -/
inductive ExecState
  | NONE
  | START_BP_SET
  | ON_BP_SHOW_PREV_FRAME
  | ON_BP_SHOW_CURR_FRAME
  | STEP_INST_PLT
  | SKIP_TO_NEXT_BP
  | EXIT
  | INVOKE_LOADER
  | CALL_FUNC
  | RET
deriving DecidableEq, Repr

/-- `DynInspector.AppMode`. -/
inductive Mode
  | DYN_LINK
  | DYN_LOAD
deriving DecidableEq, Repr

/-- The engine-owned part of the `DynLldb` wrapper state.  `hasTarget` /
`hasProcess` model `self.target is not None` / `self.process is not None`;
`stopped` models whether `self.process.GetState()` currently returns
`lldb.eStateStopped` (as opposed to an exited process). -/
structure LldbState where
  elf : Option String
  hasTarget : Bool
  hasProcess : Bool
  stopped : Bool
  plt : List PltFuncInfo
  bps : List Breakpoint
  saved_pc : Option Nat
  bp_func_name : Option String
  bp_main : Bool
  static_modules : List (List String)

/-- `DynLldb.__init__` field values. -/
def initLldb : LldbState :=
  { elf := none, hasTarget := false, hasProcess := false, stopped := false,
    plt := [], bps := [], saved_pc := none, bp_func_name := none,
    bp_main := false, static_modules := [] }

/-- `DynLldb.get_pc_from_frame`: a load address is only available while a
process exists and is stopped. The concrete address is backend data and is
passed in as `pcVal`. -/
def lldb_get_pc_from_frame (s : LldbState) (pcVal : Nat) : Option Nat :=
  if s.hasProcess = true ∧ s.stopped = true then some pcVal else none

/-- `DynLldb.get_process_state`: `None` without a process, otherwise
`STOPPED`/`EXITED`. -/
def lldb_get_process_state (s : LldbState) : Option PState :=
  if s.hasProcess = false then none
  else if s.stopped = true then some PState.STOPPED else some PState.EXITED

/-- `DynLldb.get_current_breakpoint`: walk `self.bps` in installation
order and return the first record whose address equals the current program
counter (which is `none` when no process is stopped); `none` when no
record matches (Python's implicit `return None`). -/
def get_current_breakpoint (bps : List Breakpoint) (pc : Option Nat) : Option Breakpoint :=
  match bps with
  | [] => none
  | bp :: rest => if pc = some bp.addr then some bp else get_current_breakpoint rest pc

/-- `DynLldb.get_func_info`: first `plt` entry whose `name` equals `func`
(`func` is `self.bp_func`, possibly `None`, in which case nothing
matches). -/
def get_func_info (plt : List PltFuncInfo) (func : Option String) : Option PltFuncInfo :=
  plt.find? (fun e => func == some e.name)

/-!
### Breakpoint callbacks

Each `on_*` callback of `DynLldb` builds one new `Breakpoint` record and
appends it to `self.bps` (or only logs).  The address used is
`get_pc_from_frame(1)` — the caller's return address — passed here as
`pc1 : Option Nat` (`none` when no stopped process, in which case
`BreakpointCreateByAddress(None)` raises a `TypeError`), or, for
`on_return_from_dlsym`, the string read from the return-value register by
`get_function_return_value` (`none` models that function returning `None`,
on which `int(None, 16)` raises a `TypeError`).
-/

/-- The record `DynLldb.on_plt_breakpoint` appends (tag
`RET_FROM_PLT_BP`). -/
def on_plt_breakpoint_bp (pc1 : Option Nat) : Except PyErr Breakpoint :=
  match pc1 with
  | none => .error .typeError
  | some a => .ok { addr := a, tag := Tag.RET_FROM_PLT_BP }

/-- The record `DynLldb.on_dlopen_called` appends (tag
`RET_FROM_DLOPEN`). -/
def on_dlopen_called_bp (pc1 : Option Nat) : Except PyErr Breakpoint :=
  match pc1 with
  | none => .error .typeError
  | some a => .ok { addr := a, tag := Tag.RET_FROM_DLOPEN }

/-- The record `DynLldb.on_dlclose_called` appends (tag
`RET_FROM_DLCLOSE`). -/
def on_dlclose_called_bp (pc1 : Option Nat) : Except PyErr Breakpoint :=
  match pc1 with
  | none => .error .typeError
  | some a => .ok { addr := a, tag := Tag.RET_FROM_DLCLOSE }

/-- The record `DynLldb.on_dlsym_called` appends (tag `RET_FROM_DLSYM`, at
the caller's return address). -/
def on_dlsym_called_bp (pc1 : Option Nat) : Except PyErr Breakpoint :=
  match pc1 with
  | none => .error .typeError
  | some a => .ok { addr := a, tag := Tag.RET_FROM_DLSYM }

/-- The record `DynLldb.on_return_from_dlsym` appends: the return-value
register string is parsed with `int(addr, 16)` and a `DYN_CALL_FUNC_BP`
breakpoint is created at the parsed address. -/
def on_return_from_dlsym_bp (retReg : Option String) : Except PyErr Breakpoint :=
  match retReg with
  | none => .error .typeError
  | some s =>
    match pyIntBase16 s with
    | none => .error .valueError
    | some a => .ok { addr := a, tag := Tag.DYN_CALL_FUNC_BP }

/-- The record `DynLldb.on_dynamic_function_call` appends (tag
`RET_FROM_DYN_CALL`). -/
def on_dynamic_function_call_bp (pc1 : Option Nat) : Except PyErr Breakpoint :=
  match pc1 with
  | none => .error .typeError
  | some a => .ok { addr := a, tag := Tag.RET_FROM_DYN_CALL }

/-- `DynLldb.on_dlsym_called` as a transformer of `self.bps`: append the
one new record. -/
def on_dlsym_called (pc1 : Option Nat) (bps : List Breakpoint) :
    Except PyErr (List Breakpoint) :=
  (on_dlsym_called_bp pc1).map (fun nb => bps ++ [nb])

/-- `DynLldb.on_return_from_dlsym` as a transformer of `self.bps`: append
the one new record. -/
def on_return_from_dlsym (retReg : Option String) (bps : List Breakpoint) :
    Except PyErr (List Breakpoint) :=
  (on_return_from_dlsym_bp retReg).map (fun nb => bps ++ [nb])

/-- Dispatch on the tag the callback was registered with: `some nb` means
the callback appends `nb` to `self.bps`; `ok none` means the callback only
logs (`on_return_from_plt`, `on_return_from_dlopen`,
`on_return_from_dlclose`, `on_return_from_dynamic_function_call`). -/
def callback_new_bp (t : Tag) (pc1 : Option Nat) (retReg : Option String) :
    Except PyErr (Option Breakpoint) :=
  match t with
  | Tag.PLT_BP => (on_plt_breakpoint_bp pc1).map some
  | Tag.RET_FROM_PLT_BP => .ok none
  | Tag.DLOPEN_BP => (on_dlopen_called_bp pc1).map some
  | Tag.DLSYM_BP => (on_dlsym_called_bp pc1).map some
  | Tag.DLCLOSE_BP => (on_dlclose_called_bp pc1).map some
  | Tag.RET_FROM_DLOPEN => .ok none
  | Tag.RET_FROM_DLCLOSE => .ok none
  | Tag.RET_FROM_DLSYM => (on_return_from_dlsym_bp retReg).map some
  | Tag.DYN_CALL_FUNC_BP => (on_dynamic_function_call_bp pc1).map some
  | Tag.RET_FROM_DYN_CALL => .ok none

/-- Rank of the chain a callback can spawn: a callback registered with tag
`t` only ever appends a record of strictly smaller rank, which bounds the
`for bp in self.bps` loop of `invoke_breakpoint_callback` even though the
list grows while it is being iterated. -/
def chainRank : Tag → Nat
  | Tag.DLSYM_BP => 3
  | Tag.RET_FROM_DLSYM => 2
  | Tag.DYN_CALL_FUNC_BP => 1
  | Tag.PLT_BP => 1
  | Tag.DLOPEN_BP => 1
  | Tag.DLCLOSE_BP => 1
  | _ => 0

/-- The loop body of `DynLldb.invoke_breakpoint_callback`:
`for bp in self.bps: if current_pc == bp.addr and bp.callback is not None:
bp.callback()`.  Python iterates by index over the *live* list, so records
appended by a callback are themselves visited; `i` is the loop index.
Every record in `self.bps` carries a callback, so only the address test
gates the call.  Termination: a callback only appends records of strictly
smaller `chainRank`. -/
def invokeLoop (pc0 pc1 : Option Nat) (retReg : Option String)
    (bps : List Breakpoint) (i : Nat) : Except PyErr (List Breakpoint) :=
  match h : bps[i]? with
  | none => .ok bps
  | some bp =>
    if pc0 = some bp.addr then
      match hc : callback_new_bp bp.tag pc1 retReg with
      | .error e => .error e
      | .ok none => invokeLoop pc0 pc1 retReg bps (i + 1)
      | .ok (some nb) => invokeLoop pc0 pc1 retReg (bps ++ [nb]) (i + 1)
    else invokeLoop pc0 pc1 retReg bps (i + 1)
termination_by ((bps.drop i).map (fun b => chainRank b.tag + 1)).sum
decreasing_by
  · have hlt : i < bps.length := (List.getElem?_eq_some.mp h).1
    rw [List.drop_eq_getElem_cons hlt, List.map_cons, List.sum_cons]
    omega
  · have hlt : i < bps.length := (List.getElem?_eq_some.mp h).1
    have hbp : bps[i] = bp := (List.getElem?_eq_some.mp h).2
    have hrank : chainRank nb.tag < chainRank bp.tag := by
      obtain ⟨baddr, btag⟩ := bp
      cases btag <;> cases pc1 <;> cases retReg <;>
        simp only [callback_new_bp, on_plt_breakpoint_bp, on_dlopen_called_bp,
          on_dlclose_called_bp, on_dlsym_called_bp, on_return_from_dlsym_bp,
          on_dynamic_function_call_bp, Except.map] at hc <;>
        (repeat' split at hc) <;> simp_all [chainRank] <;> (try (cases hc; simp_all))
      all_goals
        rename_i heq
        split at heq
        · cases heq
        · simp only [Except.ok.injEq] at heq
          subst heq
          simp
    rw [List.drop_append_of_le_length (by omega),
      List.drop_eq_getElem_cons hlt, List.map_cons, List.sum_cons,
      List.map_append, List.sum_append]
    simp only [List.map_cons, List.map_nil, List.sum_cons, List.sum_nil, hbp]
    omega
  · have hlt : i < bps.length := (List.getElem?_eq_some.mp h).1
    rw [List.drop_eq_getElem_cons hlt, List.map_cons, List.sum_cons]
    omega

/-- `DynLldb.invoke_breakpoint_callback`: run, in order, the callback of
every registered record whose address matches the current program
counter `pc0`. -/
def invoke_breakpoint_callback (pc0 pc1 : Option Nat) (retReg : Option String)
    (bps : List Breakpoint) : Except PyErr (List Breakpoint) :=
  invokeLoop pc0 pc1 retReg bps 0

/-!
### Indirection-table scanner (`read_plt` / `read_got`)
-/

/-- One backend symbol found in the `.plt` section of the main module:
its (possibly missing) name, its start load address, and the operand
string of its first disassembled instruction (`none` when the backend
yields no valid first instruction, on which `None[1:]` raises a
`TypeError`). -/
structure SymObs where
  name : Option String
  addr : Nat
  operands : Option String
deriving DecidableEq, Repr

/-- Python's `name.startswith('__')`: the first two characters are
underscores. -/
def startswith_dunder (s : String) : Bool :=
  match s.toList with
  | '_' :: '_' :: _ => true
  | _ => false

/-- Dictionary write `self.plt[name] = entry`: replace an entry with the
same name, otherwise append. -/
def pltInsert (plt : List PltFuncInfo) (e : PltFuncInfo) : List PltFuncInfo :=
  if plt.any (fun p => p.name == e.name) then
    plt.map (fun p => if p.name == e.name then e else p)
  else plt ++ [e]

/-- The body of `DynLldb.read_plt`'s symbol loop for one symbol: skip
unnamed or `__`-prefixed symbols; otherwise strip the first character of
the first instruction's operand (`got_plt_addr[1:]`, dropping the `*` of
an indirect jump), parse it with `int(_, 16)` — a parse failure raises
`ValueError` and aborts the whole scan — read the pointer stored at that
table slot, and store the new `PltFuncInfo` under the symbol's name. -/
def read_plt_sym (mem : Nat → Nat) (plt : List PltFuncInfo) (s : SymObs) :
    Except PyErr (List PltFuncInfo) :=
  match s.name with
  | none => .ok plt
  | some n =>
    if startswith_dunder n then .ok plt
    else
      match s.operands with
      | none => .error .typeError
      | some ops =>
        let stripped := ops.drop 1
        match pyIntBase16 stripped with
        | none => .error .valueError
        | some addr_val =>
          .ok (pltInsert plt
            { name := n, addr := s.addr,
              got_entry := { addr := stripped, value := pyHex (mem addr_val) },
              bp_enabled := none })

/-- `DynLldb.read_plt`: no-op without a process or when the process is not
stopped; otherwise fold the symbol loop over the `.plt` symbols the
backend enumerates. -/
def read_plt (hasProcess stopped : Bool) (mem : Nat → Nat)
    (plt0 : List PltFuncInfo) (syms : List SymObs) :
    Except PyErr (List PltFuncInfo) :=
  if hasProcess = false then .ok plt0
  else if stopped = true then syms.foldlM (read_plt_sym mem) plt0
  else .ok plt0

/-- The body of `DynLldb.read_got`'s loop for one entry: re-parse the
stored slot-address string, re-read the pointer there, and overwrite only
`got_entry.value` with its `hex(...)` rendering. -/
def read_got_entry (mem : Nat → Nat) (e : PltFuncInfo) : Except PyErr PltFuncInfo :=
  match pyIntBase16 e.got_entry.addr with
  | none => .error .valueError
  | some a =>
    .ok { e with got_entry := { addr := e.got_entry.addr, value := pyHex (mem a) } }

/-- `DynLldb.read_got`: refresh `got_entry.value` of every known entry in
place.  (The source mutates entries one by one; an entry whose stored
address string failed to parse would raise out of the loop, which the
claims only exercise on the success path.) -/
def read_got (mem : Nat → Nat) : List PltFuncInfo → Except PyErr (List PltFuncInfo)
  | [] => .ok []
  | e :: rest =>
    match read_got_entry mem e with
    | .error err => .error err
    | .ok e2 =>
      match read_got mem rest with
      | .error err => .error err
      | .ok rest2 => .ok (e2 :: rest2)

/-!
### Address-space reader (`read_modules` / `get_modules`)
-/

/-- One backend section of a module: load address, file offset, size. -/
structure SectionObs where
  load_address : Nat
  file_offset : Nat
  size : Nat
deriving DecidableEq, Repr

/-- One backend module with its sections. -/
structure ModuleObs where
  name : String
  sections : List SectionObs
deriving DecidableEq, Repr

/-- The section loop of `DynLldb.read_modules` for one section: a section
whose load address renders as the backend's unmapped sentinel
`0xffffffffffffffff` is skipped (`continue`); the first mapped section
fixes the start address as `load_address - file_offset` (computed in `Int`
as Python integers can go negative); every mapped section overwrites the
end address with its own `load_address + size` and adds its size. -/
def scan_step (acc : Option Int × Option Nat × Nat) (sec : SectionObs) :
    Option Int × Option Nat × Nat :=
  if pyHex sec.load_address = "0xffffffffffffffff" then acc
  else
    let sa :=
      match acc.1 with
      | none => some ((sec.load_address : Int) - (sec.file_offset : Int))
      | some v => some v
    (sa, some (sec.load_address + sec.size), acc.2.2 + sec.size)

/-- The whole section loop of `DynLldb.read_modules` over one module:
`(start_addr, end_addr, mod_size)`, starting from `(None, None, 0)`. -/
def scan_sections (secs : List SectionObs) : Option Int × Option Nat × Nat :=
  secs.foldl scan_step (none, none, 0)

/-- The row `DynLldb.read_modules` reports for one module, or `none` when
the module is skipped because no section was mapped (`start_addr` stayed
`None`).  The `(some, none)` arm cannot arise (the end address is set
whenever the start is) and mirrors the unreachable `hex(None)`. -/
def moduleRow (m : ModuleObs) : Option (List String) :=
  match scan_sections m.sections with
  | (some st, some en, sz) => some [pyHexInt st, pyHex en, pyHex sz, m.name]
  | (some _, none, _) => none
  | (none, _, _) => none

/-- `DynLldb.read_modules`: `None` when no target exists (`return` with no
value), otherwise the rows of all modules that have a mapped section. -/
def read_modules (hasTarget : Bool) (mods : List ModuleObs) :
    Option (List (List String)) :=
  if hasTarget = false then none
  else some (mods.filterMap moduleRow)

/-- `DynLldb.get_modules`: prefix each row of `read_modules` with its
static/dynamic classification against `self.static_modules`.  When
`read_modules` returned `None`, the `for m in new_modules` loop raises a
`TypeError`. -/
def lldb_get_modules (hasTarget : Bool) (static_modules : List (List String))
    (mods : List ModuleObs) : Except PyErr (List (List String)) :=
  match read_modules hasTarget mods with
  | none => .error .typeError
  | some rows =>
    .ok (rows.map (fun m =>
      (if m ∈ static_modules then "Statically loaded" else "Dynamically loaded") :: m))

/-!
### Breakpoint management and session control (`DynLldb`)
-/

/-- `DynLldb.create_plt_breakpoints`: for every `plt` entry, create a
disabled backend breakpoint at the stub address, store it in the entry,
and append a `PLT_BP`-tagged record (callback `on_plt_breakpoint`) to
`self.bps`. -/
def create_plt_breakpoints (s : LldbState) : LldbState :=
  if s.hasTarget = false then s
  else
    { s with
      plt := s.plt.map (fun e => { e with bp_enabled := some false }),
      bps := s.bps ++ s.plt.map (fun e => { addr := e.addr, tag := Tag.PLT_BP }) }

/-- `DynLldb.create_dl_breakpoints`: for the `dlopen`/`dlclose`/`dlsym`
entries of `plt` (in table order), append a tagged record at the stub
address; other entries are ignored. -/
def create_dl_breakpoints (s : LldbState) : LldbState :=
  if s.hasTarget = false then s
  else
    { s with
      bps := s.bps ++ s.plt.filterMap (fun e =>
        if e.name == "dlopen" then some { addr := e.addr, tag := Tag.DLOPEN_BP }
        else if e.name == "dlclose" then some { addr := e.addr, tag := Tag.DLCLOSE_BP }
        else if e.name == "dlsym" then some { addr := e.addr, tag := Tag.DLSYM_BP }
        else none) }

/-- `DynLldb.set_breakpoint`: record the function name, then — only with a
live target — look the function up in `self.plt` (a missing key raises
`KeyError`) and toggle its breakpoint object (`entry.bp.SetEnabled(en)`
raises `AttributeError` while `entry.bp` is still `None`). -/
def lldb_set_breakpoint (s : LldbState) (func : String) (en : Bool) :
    LldbState × Option PyErr :=
  let s := { s with bp_func_name := some func }
  if s.hasTarget = true then
    match s.plt.find? (fun e => e.name == func) with
    | none => (s, some .keyError)
    | some e =>
      match e.bp_enabled with
      | none => (s, some .attributeError)
      | some _ =>
        ({ s with
            plt := s.plt.map (fun p =>
              if p.name == func then { p with bp_enabled := some en } else p) },
          none)
  else (s, none)

/-- `DynLldb.set_elf`: `clean()` resets every field, the elf path is
recorded, and a backend target is created; whether the backend produced a
valid target is the observation `targetValid`.  The function returns
`True`/`False` — never `None` — modelled as `some targetValid`. -/
def lldb_set_elf (path : String) (targetValid : Bool) : LldbState × Option Bool :=
  ({ initLldb with elf := some path, hasTarget := targetValid }, some targetValid)

/-- Backend observations consumed by `DynLldb.run_target`. -/
structure RunObs where
  launchOk : Bool
  stoppedAtStart : Bool
  mem : Nat → Nat
  syms : List SymObs
  mods : List ModuleObs

/-- `DynLldb.run_target`: without a target return `None`; otherwise set
the implicit `main` breakpoint (a raw backend breakpoint that adds no
record to `self.bps`), launch, scan the PLT, snapshot the statically
loaded modules, and return the process (`true`).  A `read_plt` failure
propagates. -/
def lldb_run_target (s : LldbState) (o : RunObs) : LldbState × Except PyErr Bool :=
  if s.hasTarget = false then (s, .ok false)
  else
    let s := { s with bp_main := true }
    if o.launchOk = false then (s, .ok false)
    else
      let s := { s with hasProcess := true, stopped := o.stoppedAtStart }
      match read_plt true o.stoppedAtStart o.mem s.plt o.syms with
      | .error e => (s, .error e)
      | .ok plt2 =>
        let s := { s with plt := plt2 }
        let s := { s with static_modules := (read_modules true o.mods).getD [] }
        (s, .ok true)

/-- Result of `DynLldb.continue_target` as a Python value: the early
`return None, None` tuple when no process exists, or the single
`get_current_breakpoint()` value (a `Breakpoint` record or `None`). -/
inductive ContinueResult
  | noneTuple
  | bpResult (b : Option Breakpoint)
deriving DecidableEq, Repr

/-- Backend observations consumed by one `DynLldb.continue_target` call:
the process state after `Continue()` and, if then stopped, the frame-0 /
frame-1 program counters, the return-value register string read by
`get_function_return_value` (`none` when absent), and process memory for
`read_got`. -/
structure ContObs where
  stoppedAfter : Bool
  pc0After : Nat
  pc1After : Nat
  retReg : Option String
  mem : Nat → Nat

/-- `DynLldb.continue_target`: early `(None, None)` without a process; if
the process is stopped, resume it, save the frame-1 pc, fire the callbacks
of every record matching the new frame-0 pc (which may append records),
and refresh the GOT values; finally resolve the current pc against the
registry.  Mutations performed before a raised callback/`read_got` error
are kept, as in Python. -/
def lldb_continue_target (s : LldbState) (o : ContObs) :
    LldbState × Except PyErr ContinueResult :=
  if s.hasProcess = false then (s, .ok .noneTuple)
  else if s.stopped = true then
    let pc0 := if o.stoppedAfter then some o.pc0After else none
    let pc1 := if o.stoppedAfter then some o.pc1After else none
    let s1 := { s with stopped := o.stoppedAfter, saved_pc := pc1 }
    match invoke_breakpoint_callback pc0 pc1 o.retReg s1.bps with
    | .error e => (s1, .error e)
    | .ok bps2 =>
      let s2 := { s1 with bps := bps2 }
      match read_got o.mem s2.plt with
      | .error e => (s2, .error e)
      | .ok plt2 =>
        let s3 := { s2 with plt := plt2 }
        (s3, .ok (.bpResult (get_current_breakpoint s3.bps pc0)))
  else (s, .ok (.bpResult (get_current_breakpoint s.bps none)))

/-- Result of `DynLldb.step_instruction` as a Python value: the early
`return None, None` tuple, or the `(state, str(process))` pair — only the
pre-step stopped flag matters downstream. -/
inductive StepResult
  | noneTuple
  | stateTuple (stoppedBefore : Bool)
deriving DecidableEq, Repr

/-- Backend observations consumed by one `DynLldb.step_instruction` call. -/
structure StepObs where
  stoppedAfter : Bool
  mem : Nat → Nat

/-- `DynLldb.step_instruction`: early `(None, None)` without a process;
if stopped, single-step the first thread and refresh the GOT values. -/
def lldb_step_instruction (s : LldbState) (o : StepObs) :
    LldbState × Except PyErr StepResult :=
  if s.hasProcess = false then (s, .ok .noneTuple)
  else if s.stopped = true then
    let s1 := { s with stopped := o.stoppedAfter }
    match read_got o.mem s1.plt with
    | .error e => (s1, .error e)
    | .ok plt2 => ({ s1 with plt := plt2 }, .ok (.stateTuple true))
  else (s, .ok (.stateTuple false))

/-- `DynLldb.get_got`: the `[name, slot address, slot value]` rows of the
table view. -/
def lldb_get_got (s : LldbState) : List (List String) :=
  s.plt.map (fun e => [e.name, e.got_entry.addr, e.got_entry.value])

/-- `DynLldb.get_sections`: `None` without a process (`return` with no
value); otherwise rows assembled from backend section data, passed in as
the observation `rows`. -/
def lldb_get_sections (s : LldbState) (rows : List (List String)) :
    Option (List (List String)) :=
  if s.hasProcess = false then none else some rows

/-!
### Session controller (`DynInspector`)

`World` is the controller state: its own attributes plus the owned
`DynLldb` instance.  `console` accumulates `write_console_output_sig`
emissions and `contBtn` accumulates `set_cont_btn_sig` emissions; the asm
pane and the three table signals are render-only and are elided.
-/

/-- The `DynInspector` object state (`self.mode`, `self.state`,
`self.step`, `self.elf`, `self.bp_func`, `self.debugger`), plus the GUI
emission logs. -/
structure World where
  mode : Mode
  state : ExecState
  step : Int
  elf : Option String
  bp_func : Option String
  lldb : LldbState
  console : List String
  contBtn : List Bool

/-- Initial `DynInspector` state (`STEPS = 5`, `state = NONE`,
`mode = DYN_LINK`). -/
def initWorld : World :=
  { mode := Mode.DYN_LINK, state := ExecState.NONE, step := 5, elf := none,
    bp_func := none, lldb := initLldb, console := [], contBtn := [] }

/-- Console text of `DynInspector.set_elf` on `rc is not None` (the `%`
formatting is rendered with plain concatenation). -/
def msg_elf_set (p : String) : String :=
  "[DEBUG] Elf target set to " ++ p

/-- Console text of `DynInspector.set_elf`'s dead `else` branch. -/
def msg_elf_failed : String :=
  "[DEBUG] Could not set elf target."

/-- `DynInspector.set_elf`: store the path, create the backend target, and
report.  `DynLldb.set_elf` returns `True` or `False`, so the
`rc is not None` test is always true and the success message is emitted
even when no valid target was created; the state becomes `START_BP_SET`
either way. -/
def inspector_set_elf (w : World) (path : String) (targetValid : Bool) : World :=
  let r := lldb_set_elf path targetValid
  let w := { w with elf := some path, lldb := r.1 }
  let w :=
    if (r.2).isSome then { w with console := w.console ++ [msg_elf_set path] }
    else { w with console := w.console ++ [msg_elf_failed] }
  { w with state := ExecState.START_BP_SET }

/-- Console text of `DynInspector.set_breakpoint`. -/
def msg_bp_set (f : String) : String :=
  "[DEBUG] Breakpoint set on function " ++ f ++ "."

/-- `DynInspector.set_breakpoint`: ignore the empty selection; first
disable the previously selected function's breakpoint, if any, then
record and enable the new selection and report it. -/
def inspector_set_breakpoint (w : World) (func : String) : World × Option PyErr :=
  if func == "" then (w, none)
  else
    let step1 : LldbState × Option PyErr :=
      match w.bp_func with
      | some old => lldb_set_breakpoint w.lldb old false
      | none => (w.lldb, none)
    match step1 with
    | (l, some e) => ({ w with lldb := l }, some e)
    | (l, none) =>
      let w := { w with lldb := l, bp_func := some func }
      match lldb_set_breakpoint w.lldb func true with
      | (l2, some e) => ({ w with lldb := l2 }, some e)
      | (l2, none) =>
        ({ w with lldb := l2, console := w.console ++ [msg_bp_set func] }, none)

/-- Console texts of `DynInspector.continue_target_dynlink` (program
counters and slot values are rendered with `pyHex`/plain concatenation in
place of the `%` formats). -/
def msg_stopped_on_bp : String :=
  "[DEBUG] Process stopped on breakpoint. The current instruction calls " ++
    "the function monitored."

/-- Second console text of the `ON_BP_SHOW_PREV_FRAME` branch. -/
def msg_redirected (pc : Nat) : String :=
  "[DEBUG] The function call is redirected to the .PLT section at address " ++
    pyHex pc

/-- First console text of the `ON_BP_SHOW_CURR_FRAME` branch. -/
def msg_got_entry (name addr : String) : String :=
  "[DEBUG] The function " ++ name ++
    " has a corresponding entry in the .GOT.PLT section at address " ++ addr ++ "."

/-- Second console text of the `ON_BP_SHOW_CURR_FRAME` branch. -/
def msg_jump_indicated (value : String) : String :=
  "[DEBUG] We jump to the address indicated by the .GOT.PLT entry:  " ++ value

/-- Console text of the first-call arm of the `STEP_INST_PLT` branch. -/
def msg_first_call (name : String) : String :=
  "[DEBUG] It is the first call to " ++ name ++
    ". Lazy binding takes place. Jump returns to the .PLT. The dynamic " ++
    "linker will be called."

/-- First console text of the already-resolved arm of `STEP_INST_PLT`. -/
def msg_not_first_call (name value : String) : String :=
  "[DEBUG] It is not the first call to " ++ name ++
    ". The address indicated by the .GOT.PLT is " ++ value ++
    " and is the actual routine address ."

/-- Second console text of the already-resolved arm of `STEP_INST_PLT`. -/
def msg_in_routine : String :=
  "[DEBUG] In the actual routine for the function."

/-- Console text emitted at `step == 4` in the `INVOKE_LOADER` branch. -/
def msg_plt_header : String :=
  "[DEBUG] Program jumps at the beginnig of the .plt section. Here there " ++
    "are a couple of instructions which invoke the dynamic linker."

/-- Console text emitted at `step == 1` in the `INVOKE_LOADER` branch. -/
def msg_linker_invoked : String :=
  "[DEBUG] Dynamic linker invoked. It will resolve the address of the " ++
    "function called and set the correct address in the .got.plt. It also " ++
    "calls the function."

/-- Console text of the `RET` and `CALL_FUNC` branches. -/
def msg_return_caller : String :=
  "[DEBUG] Return to caller context."

/-- Console text of the fallthrough (`else`) branch. -/
def msg_finished : String :=
  "[DEBUG] Execution finished. Process exited normally."

/-- Backend observations consumed by one
`DynInspector.continue_target_dynlink` call: the observations of the
single `continue_target` or `step_instruction` the active branch issues,
the frame-0 program-counter values the branch reads, and the section rows
`get_sections` would assemble. -/
structure LinkObs where
  cont : ContObs
  stepObs : StepObs
  pcPrevVal : Nat
  pcCurrVal : Nat
  pcShowVal : Nat
  sectionRows : List (List String)

/-- `DynInspector.continue_target_dynlink`.  Faithful points worth noting:
`code, _ = self.debugger.continue_target()` unpacks the early
`(None, None)` tuple fine but raises a `TypeError` on the single
`get_current_breakpoint()` value returned when a process exists;
`func_info` attribute access raises `AttributeError` when the lookup
found nothing; `prev_pc + 6` raises a `TypeError` when `prev_pc` is
`None`; and the trailing `get_sections` update raises a `TypeError`
(iterating `None`) when no process exists.  An error skips the rest of the
function but keeps the mutations already applied. -/
def continue_target_dynlink (w : World) (o : LinkObs) : World × Option PyErr :=
  let fi := get_func_info w.lldb.plt w.bp_func
  let branch : World × Option PyErr :=
    match w.state with
    | ExecState.ON_BP_SHOW_PREV_FRAME =>
      match lldb_continue_target w.lldb o.cont with
      | (l, .error e) => ({ w with lldb := l }, some e)
      | (l, .ok (.bpResult _)) => ({ w with lldb := l }, some .typeError)
      | (l, .ok .noneTuple) =>
        let w := { w with lldb := l }
        match lldb_get_process_state l with
        | some PState.STOPPED =>
          let w := { w with state := ExecState.ON_BP_SHOW_CURR_FRAME }
          let w := { w with console := w.console ++ [msg_stopped_on_bp] }
          match lldb_get_pc_from_frame l o.pcShowVal with
          | some pc =>
            ({ w with console := w.console ++ [msg_redirected pc] }, none)
          | none => (w, some .typeError)
        | _ => ({ w with state := ExecState.EXIT }, none)
    | ExecState.ON_BP_SHOW_CURR_FRAME =>
      match fi with
      | none => (w, some .attributeError)
      | some f =>
        let w := { w with console :=
          w.console ++ [msg_got_entry f.name f.got_entry.addr,
                        msg_jump_indicated f.got_entry.value] }
        ({ w with state := ExecState.STEP_INST_PLT }, none)
    | ExecState.STEP_INST_PLT =>
      let prev := lldb_get_pc_from_frame w.lldb o.pcPrevVal
      match lldb_step_instruction w.lldb o.stepObs with
      | (l, .error e) => ({ w with lldb := l }, some e)
      | (l, .ok _) =>
        let w := { w with lldb := l }
        let curr := lldb_get_pc_from_frame l o.pcCurrVal
        match prev with
        | none => (w, some .typeError)
        | some p =>
          if some (p + 6) = curr then
            let w := { w with step := 4, state := ExecState.INVOKE_LOADER }
            match fi with
            | none => (w, some .attributeError)
            | some f =>
              ({ w with console := w.console ++ [msg_first_call f.name] }, none)
          else
            let w := { w with state := ExecState.CALL_FUNC }
            match fi with
            | none => (w, some .attributeError)
            | some f =>
              ({ w with console :=
                  w.console ++ [msg_not_first_call f.name f.got_entry.value,
                                msg_in_routine] }, none)
    | ExecState.INVOKE_LOADER =>
      match lldb_step_instruction w.lldb o.stepObs with
      | (l, .error e) => ({ w with lldb := l }, some e)
      | (l, .ok _) =>
        let w := { w with lldb := l }
        let w := if w.step = (4 : Int) then
          { w with console := w.console ++ [msg_plt_header] } else w
        let w := if w.step = (1 : Int) then
          { w with console := w.console ++ [msg_linker_invoked] } else w
        let w := { w with step := w.step - 1 }
        if w.step = (0 : Int) then ({ w with state := ExecState.RET }, none)
        else (w, none)
    | ExecState.RET =>
      match lldb_continue_target w.lldb o.cont with
      | (l, .error e) => ({ w with lldb := l }, some e)
      | (l, .ok (.bpResult _)) => ({ w with lldb := l }, some .typeError)
      | (l, .ok .noneTuple) =>
        ({ w with
            lldb := l
            console := w.console ++ [msg_return_caller]
            state := ExecState.ON_BP_SHOW_PREV_FRAME }, none)
    | ExecState.CALL_FUNC =>
      match lldb_continue_target w.lldb o.cont with
      | (l, .error e) => ({ w with lldb := l }, some e)
      | (l, .ok (.bpResult _)) => ({ w with lldb := l }, some .typeError)
      | (l, .ok .noneTuple) =>
        ({ w with
            lldb := l
            state := ExecState.ON_BP_SHOW_PREV_FRAME
            console := w.console ++ [msg_return_caller] }, none)
    | _ =>
      ({ w with
          console := w.console ++ [msg_finished]
          contBtn := w.contBtn ++ [false] }, none)
  match branch with
  | (w1, some e) => (w1, some e)
  | (w1, none) =>
    let _gotRows := lldb_get_got w1.lldb
    match lldb_get_sections w1.lldb o.sectionRows with
    | none => (w1, some .typeError)
    | some _ => (w1, none)

/-- Backend observations consumed by one
`DynInspector.continue_target_dynload` call: module listings for the two
`get_modules` calls and observations for the up to two `continue_target`
calls. -/
structure LoadObs where
  mods1 : List ModuleObs
  cont1 : ContObs
  cont2 : ContObs
  mods2 : List ModuleObs

/-- Inner outcome of a `continue_target_dynload` branch: an error, an
early `return` (which skips the trailing modules-table update), or a
fallthrough to it. -/
inductive BranchOut
  | err (e : PyErr)
  | early
  | fall
deriving DecidableEq, Repr

/-- `DynInspector.continue_target_dynload`.  `breakpoint.tag` raises an
`AttributeError` when `continue_target` returned its early `(None, None)`
tuple or `None`; the two early `return`s skip the trailing `get_modules`
update; a stop on a `dlopen`/`dlclose`/`dlsym` entry breakpoint issues a
second `continue_target` before the state test. -/
def continue_target_dynload (w : World) (o : LoadObs) : World × Option PyErr :=
  match lldb_get_modules w.lldb.hasTarget w.lldb.static_modules o.mods1 with
  | .error e => (w, some e)
  | .ok _ =>
    let branch : World × BranchOut :=
      match w.state with
      | ExecState.ON_BP_SHOW_PREV_FRAME =>
        match lldb_continue_target w.lldb o.cont1 with
        | (l, .error e) => ({ w with lldb := l }, .err e)
        | (l, .ok r) =>
          let w := { w with lldb := l }
          match lldb_get_process_state l with
          | some PState.EXITED =>
            ({ w with
                console := w.console ++ [msg_finished]
                contBtn := w.contBtn ++ [false] }, .early)
          | _ =>
            match r with
            | ContinueResult.noneTuple => (w, .err .attributeError)
            | ContinueResult.bpResult none => (w, .err .attributeError)
            | ContinueResult.bpResult (some bp) =>
              if bp.tag = Tag.RET_FROM_DYN_CALL then (w, .early)
              else
                match (if bp.tag = Tag.DLOPEN_BP ∨ bp.tag = Tag.DLCLOSE_BP ∨
                        bp.tag = Tag.DLSYM_BP
                       then lldb_continue_target w.lldb o.cont2
                       else (w.lldb, .ok r)) with
                | (l2, .error e) => ({ w with lldb := l2 }, .err e)
                | (l2, .ok r2) =>
                  let w := { w with lldb := l2 }
                  match r2 with
                  | ContinueResult.noneTuple => (w, .err .attributeError)
                  | ContinueResult.bpResult none => (w, .err .attributeError)
                  | ContinueResult.bpResult (some bp2) =>
                    if bp2.tag = Tag.DYN_CALL_FUNC_BP ∨
                        bp2.tag = Tag.RET_FROM_DLOPEN ∨
                        bp2.tag = Tag.RET_FROM_DLSYM ∨
                        bp2.tag = Tag.RET_FROM_DLCLOSE then
                      ({ w with state := ExecState.ON_BP_SHOW_CURR_FRAME }, .fall)
                    else (w, .fall)
      | ExecState.ON_BP_SHOW_CURR_FRAME =>
        ({ w with state := ExecState.ON_BP_SHOW_PREV_FRAME }, .fall)
      | _ => (w, .fall)
    match branch with
    | (w1, .err e) => (w1, some e)
    | (w1, .early) => (w1, none)
    | (w1, .fall) =>
      match lldb_get_modules w1.lldb.hasTarget w1.lldb.static_modules o.mods2 with
      | .error e => (w1, some e)
      | .ok _ => (w1, none)

/-- `DynInspector.continue_target`: dispatch on the application mode. -/
def inspector_continue_target (w : World) (lo : LinkObs) (dl : LoadObs) :
    World × Option PyErr :=
  match w.mode with
  | Mode.DYN_LINK => continue_target_dynlink w lo
  | Mode.DYN_LOAD => continue_target_dynload w dl

/-!
### Concrete sample data

Small closed instances used to evaluate the model on concrete inputs.
-/

/-- A scanned `printf` stub whose breakpoint is created and enabled. -/
def pltPrintf : PltFuncInfo :=
  { name := "printf", addr := 100,
    got_entry := { addr := "0x2000", value := "0x1000" }, bp_enabled := some true }

/-- A scanned `malloc` stub whose breakpoint is created and disabled. -/
def pltMalloc : PltFuncInfo :=
  { name := "malloc", addr := 116,
    got_entry := { addr := "0x2004", value := "0x1000" }, bp_enabled := some false }

/-- Process memory holding `0x1000` in every pointer slot. -/
def memW : Nat → Nat := fun _ => 4096

/-- A session with a launched, stopped process and two scanned stubs. -/
def lldbRunning : LldbState :=
  { initLldb with
      hasTarget := true
      hasProcess := true
      stopped := true
      plt := [pltPrintf, pltMalloc] }

/-- A session whose target is set but whose process is gone. -/
def lldbNoProc : LldbState :=
  { initLldb with hasTarget := true }

/-- Controller stopped inside the stub, about to single-step
(`STEP_INST_PLT`), monitoring `printf`. -/
def wStep : World :=
  { initWorld with
      state := ExecState.STEP_INST_PLT
      bp_func := some "printf"
      lldb := lldbRunning }

/-- Controller in `ON_BP_SHOW_PREV_FRAME` with no process attached. -/
def wPrev : World :=
  { initWorld with state := ExecState.ON_BP_SHOW_PREV_FRAME, lldb := lldbNoProc }

/-- Controller with `printf` currently selected and enabled. -/
def wSelect : World :=
  { initWorld with
      state := ExecState.START_BP_SET
      bp_func := some "printf"
      lldb := lldbRunning }

/-- Backend observations for one `continue_target` call. -/
def contObsW : ContObs :=
  { stoppedAfter := true, pc0After := 0, pc1After := 0, retReg := none, mem := memW }

/-- Backend observations for one `step_instruction` call. -/
def stepObsW : StepObs :=
  { stoppedAfter := true, mem := memW }

/-- Link-mode observations where the single step advances the program
counter by exactly the 6-byte stub dispatch width. -/
def linkObsStub : LinkObs :=
  { cont := contObsW, stepObs := stepObsW, pcPrevVal := 100, pcCurrVal := 106,
    pcShowVal := 0, sectionRows := [] }

/-- Link-mode observations where the single step lands elsewhere. -/
def linkObsDirect : LinkObs :=
  { cont := contObsW, stepObs := stepObsW, pcPrevVal := 100, pcCurrVal := 120,
    pcShowVal := 0, sectionRows := [] }

/-- Process memory holding `0` in every pointer slot. -/
def memZero : Nat → Nat := fun _ => 0

/-- A well-formed `.plt` symbol: indirect jump through `0x1000`. -/
def symPrintf : SymObs :=
  { name := some "printf", addr := 10, operands := some "*0x1000" }

/-- A malformed `.plt` symbol: its first instruction's operand is a plain
register, so `int(operand[1:], 16)` raises `ValueError`. -/
def symBroken : SymObs :=
  { name := some "broken", addr := 26, operands := some "eax" }

/-- Another well-formed `.plt` symbol after the malformed one. -/
def symMalloc : SymObs :=
  { name := some "malloc", addr := 42, operands := some "*0x2000" }

/-- A compiler-reserved symbol that the scan must skip. -/
def symReserved : SymObs :=
  { name := some "__libc_start", addr := 58, operands := none }

/-- A table entry whose slot address string is `"0x10"`. -/
def entrySlot16 : PltFuncInfo :=
  { name := "puts", addr := 200, got_entry := { addr := "0x10", value := "0x0" },
    bp_enabled := none }

/-- The entry `read_plt` builds for `symPrintf` over `memZero`. -/
def pltScanPrintf : PltFuncInfo :=
  { name := "printf", addr := 10, got_entry := { addr := "0x1000", value := "0x0" },
    bp_enabled := none }

/-- The entry `read_plt` builds for `symMalloc` over `memZero`. -/
def pltScanMalloc : PltFuncInfo :=
  { name := "malloc", addr := 42, got_entry := { addr := "0x2000", value := "0x0" },
    bp_enabled := none }

/-- The section test of `read_modules`: a section counts as mapped unless
its load address renders as the backend's unmapped sentinel. -/
def sectionMapped (sec : SectionObs) : Bool :=
  !(pyHex sec.load_address == "0xffffffffffffffff")

/-- `entrySlot16` after one refresh against `memW`. -/
def entrySlot16R : PltFuncInfo :=
  { name := "puts", addr := 200, got_entry := { addr := "0x10", value := "0x1000" },
    bp_enabled := none }

/-- A module whose two mapped sections are not in ascending address
order: the last section ends at `60` while the highest section end is
`110`. -/
def modOutOfOrder : ModuleObs :=
  { name := "libdemo", sections :=
      [{ load_address := 100, file_offset := 0, size := 10 },
       { load_address := 50, file_offset := 0, size := 10 }] }

/-- A module with one unmapped section (sentinel load address) between
two mapped ones. -/
def modMixed : ModuleObs :=
  { name := "libmix", sections :=
      [{ load_address := 18446744073709551615, file_offset := 0, size := 4 },
       { load_address := 300, file_offset := 4, size := 10 },
       { load_address := 400, file_offset := 0, size := 8 }] }

/-- A module all of whose sections are unmapped. -/
def modUnmapped : ModuleObs :=
  { name := "libu", sections :=
      [{ load_address := 18446744073709551615, file_offset := 0, size := 4 }] }

/-- A small registry with two records at distinct addresses and a stale
duplicate at `20`. -/
def bpsSample : List Breakpoint :=
  [{ addr := 10, tag := Tag.PLT_BP }, { addr := 20, tag := Tag.PLT_BP },
   { addr := 20, tag := Tag.RET_FROM_PLT_BP }]

/-- Backend observations for one `run_target` call. -/
def runObsW : RunObs :=
  { launchOk := true, stoppedAtStart := true, mem := memW, syms := [], mods := [] }

/-!
## Theorems
-/

/-- C10: resolving a stop against the registry scans `self.bps` in
installation order and returns the first record whose address equals the
program counter; when no registered record matches — in particular at the
initial stop on the implicit `main` breakpoint, which `run_target` creates
without adding any record to `self.bps` — the resolution returns `None`. -/
theorem C10_pc_resolution (bps : List Breakpoint) (pc : Option Nat) :
    ((∀ bp ∈ bps, pc ≠ some bp.addr) → get_current_breakpoint bps pc = none) ∧
    (∀ i : Fin bps.length, pc = some (bps.get i).addr →
      (∀ j : Fin bps.length, j.val < i.val → pc ≠ some (bps.get j).addr) →
      get_current_breakpoint bps pc = some (bps.get i)) ∧
    (∀ (s : LldbState) (o : RunObs), (lldb_run_target s o).1.bps = s.bps) := by
  refine ⟨?_, ?_, ?_⟩
  · induction bps with
    | nil => intro _; rfl
    | cons bp rest ih =>
      intro h
      have hbp := h bp (List.mem_cons_self bp rest)
      simp only [get_current_breakpoint, if_neg hbp]
      exact ih (fun b hb => h b (List.mem_cons_of_mem bp hb))
  · induction bps with
    | nil => exact fun i => i.elim0
    | cons bp rest ih =>
      intro i hpc hmin
      match i with
      | ⟨0, h0⟩ =>
        have hpc2 : pc = some bp.addr := hpc
        simp [get_current_breakpoint, hpc2]
      | ⟨k + 1, hk⟩ =>
        have hne : pc ≠ some bp.addr := hmin ⟨0, Nat.succ_pos _⟩ (Nat.succ_pos k)
        simp only [get_current_breakpoint, if_neg hne]
        have hk2 : k < rest.length := Nat.lt_of_succ_lt_succ hk
        have hpc2 : pc = some (rest.get ⟨k, hk2⟩).addr := hpc
        have hmin2 : ∀ j : Fin rest.length, j.val < k →
            pc ≠ some (rest.get j).addr := fun j hj =>
          hmin ⟨j.val + 1, Nat.succ_lt_succ j.isLt⟩ (Nat.succ_lt_succ hj)
        exact ih ⟨k, hk2⟩ hpc2 hmin2
  · intro s o
    unfold lldb_run_target
    split
    · rfl
    · dsimp only
      split
      · rfl
      · split <;> rfl

/-- C10 witness: on a concrete registry, the second record (first match at
address `20`, installed before the stale duplicate) is returned, and an
unmatched program counter resolves to `None`. -/
theorem C10_pc_resolution_witness :
    get_current_breakpoint bpsSample (some 20) =
      some { addr := 20, tag := Tag.PLT_BP } ∧
    get_current_breakpoint bpsSample (some 30) = none ∧
    (lldb_run_target lldbRunning runObsW).1.bps = lldbRunning.bps := by
  refine ⟨?_, ?_, ?_⟩
  · exact (C10_pc_resolution bpsSample (some 20)).2.1 ⟨1, by decide⟩ (by decide)
      (by decide)
  · exact (C10_pc_resolution bpsSample (some 30)).1 (by decide)
  · exact (C10_pc_resolution bpsSample (some 30)).2.2 lldbRunning runObsW

/-- C3: in Load-Inspection mode, a stop on the `dlsym` entry breakpoint
appends exactly one new record, tagged `RET_FROM_DLSYM`, at the immediate
caller's return address (`get_pc_from_frame(1)`); and a hit of that
record's callback parses the return-value register string as a hex address
and appends exactly one `DYN_CALL_FUNC_BP` record at the parsed address. -/
theorem C3_dlsym_breakpoint_chain (bps : List Breakpoint) (a : Nat)
    (s : String) (n : Nat) (hparse : pyIntBase16 s = some n) :
    on_dlsym_called (some a) bps =
      .ok (bps ++ [{ addr := a, tag := Tag.RET_FROM_DLSYM }]) ∧
    on_return_from_dlsym (some s) bps =
      .ok (bps ++ [{ addr := n, tag := Tag.DYN_CALL_FUNC_BP }]) := by
  constructor
  · rfl
  · simp [on_return_from_dlsym, on_return_from_dlsym_bp, hparse, Except.map]

/-- C3 witness: with caller return address `4096` and register string
`"0xf7e50"`, the two callbacks append exactly the two expected records. -/
theorem C3_dlsym_breakpoint_chain_witness :
    pyIntBase16 "0xf7e50" = some 1015376 ∧
    on_dlsym_called (some 4096) bpsSample =
      .ok (bpsSample ++ [{ addr := 4096, tag := Tag.RET_FROM_DLSYM }]) ∧
    on_return_from_dlsym (some "0xf7e50") bpsSample =
      .ok (bpsSample ++ [{ addr := 1015376, tag := Tag.DYN_CALL_FUNC_BP }]) := by
  have h := C3_dlsym_breakpoint_chain bpsSample 4096 "0xf7e50" 1015376 (by decide)
  exact ⟨by decide, h.1, h.2⟩

/-- C6: a refresh (`read_got`) changes at most the `table_value` of each
entry: the name, stub address, slot address and breakpoint flag of every
entry are untouched, and a second refresh against the same memory returns
the refreshed table unchanged (idempotence of the read-only refresh). -/
theorem C6_refresh_only_values (mem : Nat → Nat) (plt plt2 : List PltFuncInfo)
    (h : read_got mem plt = .ok plt2) :
    plt2.map (fun e => (e.name, e.addr, e.got_entry.addr, e.bp_enabled)) =
      plt.map (fun e => (e.name, e.addr, e.got_entry.addr, e.bp_enabled)) ∧
    read_got mem plt2 = .ok plt2 := by
  induction plt generalizing plt2 with
  | nil =>
    simp only [read_got] at h
    cases h
    exact ⟨rfl, rfl⟩
  | cons e rest ih =>
    simp only [read_got] at h
    rcases he : read_got_entry mem e with _ | e2
    · rw [he] at h; cases h
    · rw [he] at h
      rcases hr : read_got mem rest with _ | rest2
      · rw [hr] at h; cases h
      · rw [hr] at h
        cases h
        obtain ⟨ihmap, ihidem⟩ := ih rest2 hr
        have hfields : e2.name = e.name ∧ e2.addr = e.addr ∧
            e2.got_entry.addr = e.got_entry.addr ∧ e2.bp_enabled = e.bp_enabled := by
          unfold read_got_entry at he
          rcases hp : pyIntBase16 e.got_entry.addr with _ | a
          · rw [hp] at he; cases he
          · rw [hp] at he; cases he; exact ⟨rfl, rfl, rfl, rfl⟩
        have hidem : read_got_entry mem e2 = .ok e2 := by
          unfold read_got_entry at he ⊢
          rcases hp : pyIntBase16 e.got_entry.addr with _ | a
          · rw [hp] at he; cases he
          · rw [hp] at he
            cases he
            simp [hp]
        constructor
        · simp [hfields.1, hfields.2.1, hfields.2.2.1, hfields.2.2.2, ihmap]
        · simp only [read_got, hidem, ihidem]

/-- C6 witness: refreshing a one-entry table against memory that stores
`0x1000` everywhere rewrites only the slot value, and refreshing again is
the identity. -/
theorem C6_refresh_only_values_witness :
    read_got memW [entrySlot16] = .ok [entrySlot16R] ∧
    ([entrySlot16R].map (fun e => (e.name, e.addr, e.got_entry.addr, e.bp_enabled)) =
      [entrySlot16].map (fun e => (e.name, e.addr, e.got_entry.addr, e.bp_enabled))) ∧
    read_got memW [entrySlot16R] = .ok [entrySlot16R] := by
  have h := C6_refresh_only_values memW [entrySlot16] [entrySlot16R] (by rfl)
  exact ⟨by rfl, h.1, h.2⟩

/-- The optional last element of `a :: l` is the last of `l`, or `a` when
`l` is empty. -/
theorem getLast?_cons_getD (a : α) (l : List α) :
    (a :: l).getLast? = some (l.getLast?.getD a) := by
  induction l generalizing a with
  | nil => rfl
  | cons b t ih =>
    rw [List.getLast?_cons_cons, ih b]
    simp

/-- The section fold of `read_modules`, once a start address `st` has been
fixed: the start never changes, the end tracks the last mapped section
(falling back to the incoming `en`), and the sizes of the mapped sections
accumulate. -/
theorem scan_sections_go (secs : List SectionObs) (st : Int) (en : Option Nat)
    (sz : Nat) :
    secs.foldl scan_step (some st, en, sz) =
      (some st,
       (match (secs.filter sectionMapped).getLast? with
        | some l => some (l.load_address + l.size)
        | none => en),
       sz + ((secs.filter sectionMapped).map (fun sec => sec.size)).sum) := by
  induction secs generalizing en sz with
  | nil => simp
  | cons c rest ih =>
    by_cases hc : pyHex c.load_address = "0xffffffffffffffff"
    · have hm : sectionMapped c = false := by
        simp [sectionMapped, hc]
      rw [List.foldl_cons, List.filter_cons_of_neg (by simp [hm])]
      simpa [scan_step, hc] using ih en sz
    · have hm : sectionMapped c = true := by
        simp [sectionMapped, hc]
      rw [List.foldl_cons, List.filter_cons_of_pos hm]
      have hstep : scan_step (some st, en, sz) c =
          (some st, some (c.load_address + c.size), sz + c.size) := by
        simp [scan_step, hc]
      rw [hstep, ih, getLast?_cons_getD]
      cases hlast : (rest.filter sectionMapped).getLast? with
      | none => simp [hlast]; omega
      | some x => simp [hlast]; omega

/-- The section fold of `read_modules` from the initial accumulator: the
start is `load_address - file_offset` of the first mapped section, the end
is `load_address + size` of the last mapped section, and the size is the
sum over the mapped sections. -/
theorem scan_sections_spec (secs : List SectionObs) :
    scan_sections secs =
      ((secs.filter sectionMapped).head?.map
         (fun sec => (sec.load_address : Int) - (sec.file_offset : Int)),
       (secs.filter sectionMapped).getLast?.map
         (fun sec => sec.load_address + sec.size),
       ((secs.filter sectionMapped).map (fun sec => sec.size)).sum) := by
  induction secs with
  | nil => rfl
  | cons c rest ih =>
    by_cases hc : pyHex c.load_address = "0xffffffffffffffff"
    · have hm : sectionMapped c = false := by
        simp [sectionMapped, hc]
      rw [scan_sections, List.foldl_cons, List.filter_cons_of_neg (by simp [hm])]
      have hstep : scan_step (none, none, 0) c = (none, none, 0) := by
        simp [scan_step, hc]
      rw [hstep]
      exact ih
    · have hm : sectionMapped c = true := by
        simp [sectionMapped, hc]
      rw [scan_sections, List.foldl_cons, List.filter_cons_of_pos hm]
      have hstep : scan_step (none, none, 0) c =
          (some ((c.load_address : Int) - (c.file_offset : Int)),
           some (c.load_address + c.size), 0 + c.size) := by
        simp [scan_step, hc]
      rw [hstep, scan_sections_go, getLast?_cons_getD]
      cases hlast : (rest.filter sectionMapped).getLast? with
      | none => simp [hlast]
      | some x => simp [hlast]

/-- C7 (amended): sections at the backend's unmapped-sentinel load address
are skipped; a module's reported start address is
`load_address - file_offset` of its first mapped section; its reported end
address is `load_address + size` of its **last** mapped section (which is
the highest such value only when the mapped sections are listed in
ascending address order), and its size is the sum of the mapped sections'
sizes. -/
theorem C7_module_bounds (m : ModuleObs) :
    scan_sections m.sections =
      ((m.sections.filter sectionMapped).head?.map
         (fun sec => (sec.load_address : Int) - (sec.file_offset : Int)),
       (m.sections.filter sectionMapped).getLast?.map
         (fun sec => sec.load_address + sec.size),
       ((m.sections.filter sectionMapped).map (fun sec => sec.size)).sum) ∧
    (∀ st en sz, scan_sections m.sections = (some st, some en, sz) →
      moduleRow m = some [pyHexInt st, pyHex en, pyHex sz, m.name]) := by
  refine ⟨scan_sections_spec m.sections, ?_⟩
  intro st en sz h
  unfold moduleRow
  rw [h]

/-- C7 witness: on a module with one unmapped and two mapped sections, the
scan skips the sentinel section, starts at `300 - 4`, ends after the last
mapped section `400 + 8`, and its reported row renders those values. -/
theorem C7_module_bounds_witness :
    scan_sections modMixed.sections = (some 296, some 408, 18) ∧
    moduleRow modMixed = some ["0x128", "0x198", "0x12", "libmix"] := by
  have h := C7_module_bounds modMixed
  refine ⟨?_, ?_⟩
  · rw [h.1]; rfl
  · exact h.2 296 408 18 (by rw [h.1]; rfl)

/-- C7 counterexample: for a module whose mapped sections are not in
ascending order, the reported end address is that of the *last* section
(`50 + 10 = 60 = 0x3c`), not the highest `load_address + size` over the
sections (`110 = 0x6e`), refuting the claim's "highest" clause. -/
theorem C7_end_address_counterexample :
    read_modules true [modOutOfOrder] = some [["0x64", "0x3c", "0x14", "libdemo"]] ∧
    (modOutOfOrder.sections.map (fun sec => sec.load_address + sec.size)).max? =
      some 110 ∧
    (∀ sec ∈ modOutOfOrder.sections, sectionMapped sec = true) ∧
    pyHex 110 = "0x6e" ∧ ("0x3c" : String) ≠ "0x6e" := by
  refine ⟨by rfl, by decide, by decide, by rfl, by decide⟩

/-- C8 (amended): with no target created, `read_modules` returns `None`
(not an empty sequence) and `get_modules` raises a `TypeError` iterating
it; with a target, the reader consults no process state, and when every
section is unmapped it returns the empty listing without raising. -/
theorem C8_modules_no_process (mods : List ModuleObs)
    (statics : List (List String)) :
    read_modules false mods = none ∧
    lldb_get_modules false statics mods = .error .typeError ∧
    ((∀ m ∈ mods, ∀ sec ∈ m.sections,
        pyHex sec.load_address = "0xffffffffffffffff") →
      read_modules true mods = some [] ∧
      lldb_get_modules true statics mods = .ok []) := by
  refine ⟨rfl, rfl, ?_⟩
  intro hall
  have hrows : mods.filterMap moduleRow = [] := by
    rw [List.filterMap_eq_nil_iff]
    intro m hm
    have hfilter : m.sections.filter sectionMapped = [] := by
      rw [List.filter_eq_nil_iff]
      intro sec hsec
      simp [sectionMapped, hall m hm sec hsec]
    unfold moduleRow
    rw [scan_sections_spec, hfilter]
    rfl
  constructor
  · unfold read_modules
    rw [hrows]
    rfl
  · unfold lldb_get_modules read_modules
    rw [hrows]
    rfl

/-- C8 witness: a target whose only module has a single unmapped section
produces the empty listing without raising. -/
theorem C8_modules_no_process_witness :
    read_modules true [modUnmapped] = some [] ∧
    lldb_get_modules true [] [modUnmapped] = .ok [] :=
  (C8_modules_no_process [modUnmapped] []).2.2 (by decide)

/-- C8 counterexample: with no target (hence no attached process), the
module listing is `None` — not an empty sequence — and `get_modules`
raises a `TypeError` instead of returning. -/
theorem C8_modules_counterexample :
    read_modules false [modUnmapped] ≠ some [] ∧
    read_modules false [modUnmapped] = none ∧
    lldb_get_modules false [] [modUnmapped] = .error .typeError := by
  refine ⟨by simp [read_modules], rfl, rfl⟩

/-- C5 (amended): during the indirection-table scan, a symbol with no name
or with a compiler-reserved `__`-prefixed name is skipped and the scan
continues over the remaining symbols; but a symbol whose first
instruction's operand (minus its leading character) does not parse as a
hexadecimal integer raises `ValueError` and aborts the *entire* scan —
symbols after it are never processed. -/
theorem C5_scan_abort (mem : Nat → Nat) (plt0 : List PltFuncInfo) :
    (∀ (s : SymObs) (syms : List SymObs),
      (s.name = none ∨ ∃ n, s.name = some n ∧ startswith_dunder n = true) →
      read_plt true true mem plt0 (s :: syms) = read_plt true true mem plt0 syms) ∧
    (∀ (pre post : List SymObs) (s : SymObs) (acc : List PltFuncInfo)
        (n ops : String),
      read_plt true true mem plt0 pre = .ok acc →
      s.name = some n → startswith_dunder n = false → s.operands = some ops →
      pyIntBase16 (ops.drop 1) = none →
      read_plt true true mem plt0 (pre ++ s :: post) = .error .valueError) := by
  constructor
  · intro s syms hskip
    have hsym : read_plt_sym mem plt0 s = .ok plt0 := by
      rcases hskip with hname | ⟨n, hname, hdu⟩
      · simp [read_plt_sym, hname]
      · simp [read_plt_sym, hname, hdu]
    show (s :: syms).foldlM (read_plt_sym mem) plt0 =
      syms.foldlM (read_plt_sym mem) plt0
    rw [List.foldlM_cons, hsym]
    rfl
  · intro pre post s acc n ops hpre hname hres hops hparse
    have hsym : read_plt_sym mem acc s = .error .valueError := by
      simp [read_plt_sym, hname, hres, hops, hparse]
    have hpre2 : pre.foldlM (read_plt_sym mem) plt0 = .ok acc := hpre
    show (pre ++ s :: post).foldlM (read_plt_sym mem) plt0 =
      Except.error PyErr.valueError
    rw [List.foldlM_append, hpre2]
    show (s :: post).foldlM (read_plt_sym mem) acc = Except.error PyErr.valueError
    rw [List.foldlM_cons, hsym]
    rfl

/-- C5 witness: the reserved symbol `__libc_start` is skipped while the
scan of the following symbol proceeds; and with a well-formed prefix
already scanned, a malformed symbol aborts the scan with `ValueError`. -/
theorem C5_scan_abort_witness :
    read_plt true true memZero [] [symReserved, symPrintf] =
      read_plt true true memZero [] [symPrintf] ∧
    read_plt true true memZero [] [symPrintf, symBroken, symMalloc] =
      .error .valueError := by
  have h := C5_scan_abort memZero []
  refine ⟨h.1 symReserved [symPrintf] ?_,
    h.2 [symPrintf] [symMalloc] symBroken [pltScanPrintf] "broken" "eax"
      (by rfl) rfl (by decide) rfl (by decide)⟩
  exact Or.inr ⟨"__libc_start", rfl, by decide⟩

/-- C5 counterexample: the claim says a malformed stub is skipped and the
scan runs to completion over the remaining symbols; in fact the scan of
`[printf, broken, malloc]` aborts with `ValueError` — it does not produce
any table — whereas the same scan without the malformed symbol completes
with both well-formed entries. -/
theorem C5_scan_skip_counterexample :
    read_plt true true memZero [] [symPrintf, symBroken, symMalloc] =
      .error .valueError ∧
    read_plt true true memZero [] [symPrintf, symMalloc] =
      .ok [pltScanPrintf, pltScanMalloc] := by
  exact ⟨rfl, rfl⟩

/-- C9 (the code evaluated at the failing input): setting a target whose
backend image creation fails still emits the success console message
`"Elf target set to ..."` — the `rc is not None` test is always true
because `DynLldb.set_elf` returns `True`/`False`, never `None` — so the
failure-report branch is dead; the session does stay in the pre-run
`START_BP_SET` state with no target. -/
theorem C9_set_elf_failure_reported_as_success :
    (inspector_set_elf initWorld "libdemo.bad" false).console =
      [msg_elf_set "libdemo.bad"] ∧
    msg_elf_failed ∉ (inspector_set_elf initWorld "libdemo.bad" false).console ∧
    (inspector_set_elf initWorld "libdemo.bad" false).state =
      ExecState.START_BP_SET ∧
    (inspector_set_elf initWorld "libdemo.bad" false).lldb.hasTarget = false := by
  refine ⟨rfl, by decide, rfl, rfl⟩

/-- C1: in Link-Inspection mode, when the controller is in
`STEP_INST_PLT` (stepping through the stub) and a single-instruction step
is taken, then for every pair of pre/post program counters: if the step
advanced the program counter by exactly the 6-byte stub dispatch width,
the next state is `INVOKE_LOADER` with the step budget set to `4`;
otherwise the next state is the already-resolved direct-call path
`CALL_FUNC`. -/
theorem C1_stub_step_transition (w : World) (o : LinkObs) (f : PltFuncInfo)
    (plt2 : List PltFuncInfo)
    (hstate : w.state = ExecState.STEP_INST_PLT)
    (hproc : w.lldb.hasProcess = true)
    (hstop : w.lldb.stopped = true)
    (hstep : o.stepObs.stoppedAfter = true)
    (hfi : get_func_info w.lldb.plt w.bp_func = some f)
    (hgot : read_got o.stepObs.mem w.lldb.plt = .ok plt2) :
    (o.pcCurrVal = o.pcPrevVal + 6 →
      (continue_target_dynlink w o).1.state = ExecState.INVOKE_LOADER ∧
      (continue_target_dynlink w o).1.step = 4 ∧
      (continue_target_dynlink w o).2 = none) ∧
    (o.pcCurrVal ≠ o.pcPrevVal + 6 →
      (continue_target_dynlink w o).1.state = ExecState.CALL_FUNC ∧
      (continue_target_dynlink w o).2 = none) := by
  have hres : continue_target_dynlink w o =
      if o.pcCurrVal = o.pcPrevVal + 6 then
        ({ w with
            lldb := { w.lldb with stopped := true, plt := plt2 }
            step := 4
            state := ExecState.INVOKE_LOADER
            console := w.console ++ [msg_first_call f.name] }, none)
      else
        ({ w with
            lldb := { w.lldb with stopped := true, plt := plt2 }
            state := ExecState.CALL_FUNC
            console := w.console ++ [msg_not_first_call f.name f.got_entry.value,
                                     msg_in_routine] }, none) := by
    unfold continue_target_dynlink
    rw [hstate]
    simp only [lldb_step_instruction, hproc, Bool.true_eq_false, if_neg,
      hstop, if_true, ite_false, ite_true, hstep]
    rw [hgot, hfi]
    simp only [lldb_get_pc_from_frame, hproc, hstop, and_self, if_true, ite_true,
      lldb_get_sections, Option.some.injEq]
    by_cases hpc : o.pcCurrVal = o.pcPrevVal + 6
    · simp [hpc]
    · have hpc2 : ¬(o.pcPrevVal + 6 = o.pcCurrVal) := fun h => hpc h.symm
      simp [hpc, hpc2]
  constructor
  · intro hpc
    rw [hres, if_pos hpc]
    exact ⟨rfl, rfl, rfl⟩
  · intro hpc
    rw [hres, if_neg hpc]
    exact ⟨rfl, rfl⟩

/-- C1 witness: stepping from pc `100`, landing at `106 = 100 + 6` enters
`INVOKE_LOADER` with step budget `4`, while landing at `120` enters
`CALL_FUNC`. -/
theorem C1_stub_step_transition_witness :
    (continue_target_dynlink wStep linkObsStub).1.state =
      ExecState.INVOKE_LOADER ∧
    (continue_target_dynlink wStep linkObsStub).1.step = 4 ∧
    (continue_target_dynlink wStep linkObsStub).2 = none ∧
    (continue_target_dynlink wStep linkObsDirect).1.state =
      ExecState.CALL_FUNC ∧
    (continue_target_dynlink wStep linkObsDirect).2 = none := by
  have h1 := C1_stub_step_transition wStep linkObsStub pltPrintf
    [pltPrintf, pltMalloc] rfl rfl rfl rfl (by rfl) (by rfl)
  have h2 := C1_stub_step_transition wStep linkObsDirect pltPrintf
    [pltPrintf, pltMalloc] rfl rfl rfl rfl (by rfl) (by rfl)
  exact ⟨(h1.1 (by decide)).1, (h1.1 (by decide)).2.1, (h1.1 (by decide)).2.2,
    (h2.2 (by decide)).1, (h2.2 (by decide)).2⟩

/-- C4 (amended): at the backend level, a continue or step issued with no
process attached returns the early `(None, None)` tuple without mutating
any debugger state and without raising; but no "no target running" message
exists anywhere — the Link-mode controller issuing a continue from
`ON_BP_SHOW_PREV_FRAME` with no process emits no console message at all,
silently advances its phase to `EXIT`, and then raises a `TypeError` while
iterating the `None` section listing. -/
theorem C4_no_process_noop (s : LldbState) (oc : ContObs) (os : StepObs)
    (w : World) (lo : LinkObs)
    (hs : s.hasProcess = false)
    (hw : w.lldb.hasProcess = false)
    (hst : w.state = ExecState.ON_BP_SHOW_PREV_FRAME) :
    lldb_continue_target s oc = (s, .ok .noneTuple) ∧
    lldb_step_instruction s os = (s, .ok .noneTuple) ∧
    (continue_target_dynlink w lo).1.state = ExecState.EXIT ∧
    (continue_target_dynlink w lo).1.console = w.console ∧
    (continue_target_dynlink w lo).2 = some PyErr.typeError := by
  have hres : continue_target_dynlink w lo =
      ({ w with state := ExecState.EXIT }, some PyErr.typeError) := by
    unfold continue_target_dynlink
    rw [hst]
    simp [lldb_continue_target, lldb_get_process_state, lldb_get_sections, hw]
  refine ⟨?_, ?_, ?_, ?_, ?_⟩
  · simp [lldb_continue_target, hs]
  · simp [lldb_step_instruction, hs]
  · rw [hres]
  · rw [hres]
  · rw [hres]

/-- C4 witness: the backend no-ops and the Link-mode controller behavior
at a concrete no-process session. -/
theorem C4_no_process_noop_witness :
    lldb_continue_target lldbNoProc contObsW = (lldbNoProc, .ok .noneTuple) ∧
    lldb_step_instruction lldbNoProc stepObsW = (lldbNoProc, .ok .noneTuple) ∧
    (continue_target_dynlink wPrev linkObsStub).1.state = ExecState.EXIT := by
  have h := C4_no_process_noop lldbNoProc contObsW stepObsW wPrev linkObsStub
    rfl rfl rfl
  exact ⟨h.1, h.2.1, h.2.2.1⟩

/-- C4 counterexample: a continue issued in Link-Inspection mode with no
process attached is *not* a reported no-op: the phase silently moves from
`ON_BP_SHOW_PREV_FRAME` to `EXIT`, no console message whatsoever (in
particular none reporting "no target running") is emitted, and a
`TypeError` escapes from the trailing section-table update. -/
theorem C4_no_target_running_counterexample :
    wPrev.state = ExecState.ON_BP_SHOW_PREV_FRAME ∧
    wPrev.lldb.hasProcess = false ∧
    (continue_target_dynlink wPrev linkObsStub).1.state = ExecState.EXIT ∧
    (continue_target_dynlink wPrev linkObsStub).1.console = [] ∧
    (continue_target_dynlink wPrev linkObsStub).2 = some PyErr.typeError := by
  exact ⟨rfl, rfl, rfl, rfl, rfl⟩

/-- A function name present in the table is found by `find?`, and the
found entry bears that name. -/
theorem find_name_spec (plt : List PltFuncInfo) (A : String)
    (hmem : A ∈ plt.map PltFuncInfo.name) :
    ∃ eA, plt.find? (fun e => e.name == A) = some eA ∧ eA ∈ plt ∧ eA.name = A := by
  have hex : ∃ x ∈ plt, (x.name == A) = true := by
    rcases List.mem_map.mp hmem with ⟨x, hx, hname⟩
    exact ⟨x, hx, by simp [hname]⟩
  have hsome := (List.find?_isSome).mpr hex
  rcases Option.isSome_iff_exists.mp hsome with ⟨eA, hEA⟩
  refine ⟨eA, hEA, List.mem_of_find?_eq_some hEA, ?_⟩
  have := List.find?_some hEA
  simpa using this

/-- `DynLldb.set_breakpoint` under a live target, when the function is
present and its breakpoint object exists: it records the name and toggles
exactly that entry's flag. -/
theorem lldb_set_breakpoint_spec (s : LldbState) (func : String) (en : Bool)
    (eF : PltFuncInfo)
    (htgt : s.hasTarget = true)
    (hfind : s.plt.find? (fun e => e.name == func) = some eF)
    (hsome : eF.bp_enabled.isSome = true) :
    lldb_set_breakpoint s func en =
      ({ s with
          bp_func_name := some func
          plt := s.plt.map (fun p =>
            if p.name == func then { p with bp_enabled := some en } else p) },
        none) := by
  unfold lldb_set_breakpoint
  simp only [htgt, if_true, ite_true]
  rw [hfind]
  dsimp only
  rcases Option.isSome_iff_exists.mp hsome with ⟨b, hb⟩
  rw [hb]

/-- With pairwise distinct names, the sub-list of entries named `B` has
exactly one element whenever `B` occurs among the names. -/
theorem filter_name_length_one (plt : List PltFuncInfo) (B : String)
    (hnodup : (plt.map PltFuncInfo.name).Nodup)
    (hmem : B ∈ plt.map PltFuncInfo.name) :
    (plt.filter (fun e => e.name == B)).length = 1 := by
  induction plt with
  | nil => simp at hmem
  | cons e rest ih =>
    simp only [List.map_cons, List.nodup_cons] at hnodup
    by_cases hb : e.name = B
    · have hnotin : B ∉ rest.map PltFuncInfo.name := hb ▸ hnodup.1
      rw [List.filter_cons_of_pos (by simp [hb])]
      have hnil : rest.filter (fun x => x.name == B) = [] := by
        rw [List.filter_eq_nil_iff]
        intro x hx hxB
        rw [beq_iff_eq] at hxB
        exact hnotin (hxB ▸ List.mem_map_of_mem PltFuncInfo.name hx)
      simp [hnil]
    · rw [List.filter_cons_of_neg (by simp [hb])]
      apply ih hnodup.2
      rcases List.mem_cons.mp hmem with h | h
      · exact absurd h.symm hb
      · exact h

/-- C2: in Link-Inspection mode, whenever function `A`'s breakpoint is the
one currently enabled (every entry's flag equals "my name is `A`") and the
user selects function `B`, the controller first disables `A`'s breakpoint
and then enables `B`'s: the call succeeds, every entry's flag afterwards
equals "my name is `B`", and exactly one function-level breakpoint is
enabled — `B`'s. -/
theorem C2_single_enabled_breakpoint (w : World) (A B : String)
    (htgt : w.lldb.hasTarget = true)
    (hA : w.bp_func = some A)
    (hAmem : A ∈ w.lldb.plt.map PltFuncInfo.name)
    (hBmem : B ∈ w.lldb.plt.map PltFuncInfo.name)
    (hBne : B ≠ "")
    (hnodup : (w.lldb.plt.map PltFuncInfo.name).Nodup)
    (hinv : ∀ e ∈ w.lldb.plt, e.bp_enabled = some (e.name == A)) :
    ∃ w2, inspector_set_breakpoint w B = (w2, none) ∧
      (∀ e ∈ w2.lldb.plt, e.bp_enabled = some (e.name == B)) ∧
      (w2.lldb.plt.filter (fun e => e.bp_enabled == some true)).length = 1 := by
  rcases find_name_spec w.lldb.plt A hAmem with ⟨eA, hfindA, hmemA, hnameA⟩
  have hdisable := lldb_set_breakpoint_spec w.lldb A false eA htgt hfindA
    (by rw [hinv eA hmemA]; rfl)
  set plt1 : List PltFuncInfo := w.lldb.plt.map (fun p =>
    if p.name == A then { p with bp_enabled := some false } else p) with hplt1
  have hnames1 : plt1.map PltFuncInfo.name = w.lldb.plt.map PltFuncInfo.name := by
    rw [hplt1, List.map_map]
    congr 1
    funext p
    by_cases hp : p.name = A <;> simp [hp]
  have hinv1 : ∀ e ∈ plt1, e.bp_enabled = some false := by
    intro e he
    rcases List.mem_map.mp he with ⟨x, hx, hxe⟩
    by_cases hp : x.name = A
    · rw [← hxe]; simp [hp]
    · rw [← hxe]
      simp only [beq_iff_eq, hp, if_false, ite_false]
      rw [hinv x hx]
      simp [hp]
  set l1 : LldbState :=
    { w.lldb with bp_func_name := some A, plt := plt1 } with hl1
  rcases find_name_spec plt1 B (by rw [hnames1]; exact hBmem) with
    ⟨eB, hfindB, hmemB, hnameB⟩
  have henable := lldb_set_breakpoint_spec l1 B true eB (by rw [hl1]; exact htgt)
    (by rw [hl1]; exact hfindB) (by rw [hinv1 eB hmemB]; rfl)
  set plt2 : List PltFuncInfo := plt1.map (fun p =>
    if p.name == B then { p with bp_enabled := some true } else p) with hplt2
  have hnames2 : plt2.map PltFuncInfo.name = plt1.map PltFuncInfo.name := by
    rw [hplt2, List.map_map]
    congr 1
    funext p
    by_cases hp : p.name = B <;> simp [hp]
  have hinv2 : ∀ e ∈ plt2, e.bp_enabled = some (e.name == B) := by
    intro e he
    rcases List.mem_map.mp he with ⟨x, hx, hxe⟩
    by_cases hp : x.name = B
    · rw [← hxe]; simp [hp]
    · rw [← hxe]
      simp only [beq_iff_eq, hp, if_false, ite_false]
      rw [hinv1 x hx]
      have : (x.name == B) = false := by simp [hp]
      rw [this]
  refine ⟨{ w with
      lldb := { l1 with bp_func_name := some B, plt := plt2 }
      bp_func := some B
      console := w.console ++ [msg_bp_set B] }, ?_, ?_, ?_⟩
  · unfold inspector_set_breakpoint
    have hBne2 : (B == "") = false := by simp [hBne]
    rw [hBne2]
    dsimp only
    rw [hA]
    dsimp only
    rw [hdisable]
    dsimp only
    rw [henable]
    rfl
  · intro e he
    exact hinv2 e he
  · have hcongr : (plt2.filter (fun e => e.bp_enabled == some true)) =
        (plt2.filter (fun e => e.name == B)) := by
      apply List.filter_congr
      intro x hx
      rw [hinv2 x hx]
      by_cases hp : x.name = B <;> simp [hp]
    show (plt2.filter (fun e => e.bp_enabled == some true)).length = 1
    rw [hcongr]
    exact filter_name_length_one plt2 B
      (by rw [hnames2, hnames1]; exact hnodup)
      (by rw [hnames2, hnames1]; exact hBmem)

/-- C2 witness: with `printf`'s breakpoint enabled, selecting `malloc`
succeeds and leaves exactly one enabled breakpoint — `malloc`'s. -/
theorem C2_single_enabled_breakpoint_witness :
    (inspector_set_breakpoint wSelect "malloc").2 = none ∧
    ((inspector_set_breakpoint wSelect "malloc").1.lldb.plt.all
        (fun e => e.bp_enabled == some (e.name == "malloc"))) = true ∧
    ((inspector_set_breakpoint wSelect "malloc").1.lldb.plt.filter
        (fun e => e.bp_enabled == some true)).length = 1 := by
  obtain ⟨w2, hrun, hinv, hcount⟩ := C2_single_enabled_breakpoint wSelect
    "printf" "malloc" rfl rfl (by decide) (by decide) (by decide) (by decide)
    (by decide)
  have h1 : (inspector_set_breakpoint wSelect "malloc").1 = w2 := by rw [hrun]
  refine ⟨by rw [hrun], ?_, by rw [h1]; exact hcount⟩
  rw [h1]
  rw [List.all_eq_true]
  intro e he
  rw [hinv e he]
  simp

end DynInspectorModel
